import Mathlib

/-! Verification of the budx social-media backend (src/server.js): the document
schemas, the authentication middleware, and the route handlers are embedded
shallowly as pure Lean functions over an explicit document-store state.  The
external collaborators the server calls — the argon2 credential hasher, the
jsonwebtoken signer/verifier, and the MongoDB unique indexes — are not part of
src/ and are modelled from the specification, each marked in its doc comment. -/

namespace Budx

/-- Modelled from the spec (section 4.1): the stored argon2 credential hash.
The argon2 library is external to src/; the salted one-way digest is modelled
extensionally as the salt paired with an injective image of the plaintext, so
that recompute-and-compare verification is exact. -/
structure CredHash where
  salt : Nat
  digest : String
deriving DecidableEq

/-- Modelled from the spec (section 4.1): argon2.hash with the salt made an
explicit entropy input. -/
def argon2hash (salt : Nat) (p : String) : CredHash := ⟨salt, p⟩

/-- Modelled from the spec (section 4.1): argon2.verify recomputes the digest
under the stored salt and compares. -/
def argon2verify (h : CredHash) (p : String) : Bool := h.digest == p

/-- Payload signed into a session token: server.js line 100 signs
`\x7b id: user._id \x7d`. -/
structure JwtPayload where
  id : Nat
deriving DecidableEq

/-- A presented token: either a structurally well-formed signed token or a
malformed string that no verifier accepts. -/
inductive Token where
  | signed (id exp sig : Nat)
  | malformed (raw : String)
deriving DecidableEq

/-- Modelled from the spec (section 4.2): verification fails uniformly with a
single error kind, never distinguishing expired from malformed. -/
inductive JwtError where
  | invalid
deriving DecidableEq

/-- Numeric code of a string, used by the modelled signing function. -/
def strCode (s : String) : Nat :=
  s.toList.foldl (fun a c => a * 256 + c.toNat) 0

/-- Modelled from the spec (section 4.2): the signature the secret produces
over a payload id and expiry (the jsonwebtoken HMAC is external to src/). -/
def sigOf (secret : String) (payloadId exp : Nat) : Nat :=
  strCode secret + 1000003 * payloadId + 1000033 * exp

/-- Modelled from the spec (section 4.2): jwt.sign at server.js line 100 —
the token embeds the identity id and an expiry one hour (3600 seconds) from
issuance, signed under the secret. -/
def jwtSign (secret : String) (uid : Nat) (now : Nat) : Token :=
  .signed uid (now + 3600) (sigOf secret uid (now + 3600))

/-- Modelled from the spec (section 4.2): jwt.verify at server.js line 61 —
checks the signature and the expiry; every failure (malformed token, wrong
signature, expiry not in the future) is the one error kind. -/
def jwtVerify (secret : String) (now : Nat) : Token → Except JwtError JwtPayload
  | .malformed _ => .error .invalid
  | .signed uid exp sig =>
      if sig = sigOf secret uid exp then
        if now < exp then .ok ⟨uid⟩ else .error .invalid
      else .error .invalid

/-- UserSchema (server.js lines 21-26). -/
structure UserDoc where
  uid : Nat
  username : String
  email : String
  password : CredHash
  profilePic : String
deriving DecidableEq

/-- PostSchema (server.js lines 28-34): group defaults to null. -/
structure PostDoc where
  pid : Nat
  author : Nat
  content : String
  images : List String
  group : Option Nat
  createdAt : Nat
deriving DecidableEq

/-- GroupSchema (server.js lines 36-41). -/
structure GroupDoc where
  gid : Nat
  name : String
  description : Option String
  members : List Nat
  createdAt : Nat
deriving DecidableEq

/-- MessageSchema (server.js lines 43-48). -/
structure MessageDoc where
  mid : Nat
  sender : Nat
  receiver : Nat
  content : String
  sentAt : Nat
deriving DecidableEq

/-- The document store: the four collections plus the id allocator. -/
structure DB where
  users : List UserDoc
  posts : List PostDoc
  groups : List GroupDoc
  messages : List MessageDoc
  nextId : Nat
deriving DecidableEq

/-- An HTTP response as the handlers produce it: a status code with either a
JSON message body or the created/issued document. -/
inductive ApiResponse where
  | msg (status : Nat) (message : String)
  | tokenRes (status : Nat) (t : Token)
  | postRes (status : Nat) (p : PostDoc)
  | groupRes (status : Nat) (g : GroupDoc)
  | messageRes (status : Nat) (m : MessageDoc)
deriving DecidableEq

/-- HTTP status code of a response. -/
def ApiResponse.statusOf : ApiResponse → Nat
  | .msg s _ => s
  | .tokenRes s _ => s
  | .postRes s _ => s
  | .groupRes s _ => s
  | .messageRes s _ => s

/-- Body of POST /users/register (server.js line 78 destructures these). -/
structure RegisterBody where
  username : String
  email : String
  password : String
deriving DecidableEq

/-- Body of POST /users/login (server.js line 92). -/
structure LoginBody where
  email : String
  password : String
deriving DecidableEq

/-- Body of the post-creation routes.  The handlers destructure only content
and images (server.js lines 109 and 163); the author and group fields model
client-supplied JSON the handlers never read. -/
structure PostBody where
  content : String
  images : List String
  author : Option Nat
  group : Option Nat
deriving DecidableEq

/-- Body of POST /groups (server.js line 135 destructures name, description);
the members field models client-supplied JSON the handler never reads. -/
structure GroupBody where
  name : String
  description : Option String
  members : Option (List Nat)
deriving DecidableEq

/-- Body of POST /messages (server.js line 187 destructures receiver,
content); the sender field models client-supplied JSON the handler never
reads. -/
structure MessageBody where
  receiver : Nat
  content : String
  sender : Option Nat
deriving DecidableEq

/-- The authentication middleware (server.js lines 56-67): no Authorization
header yields 401 "Access denied"; a header whose token fails verification
yields 400 "Invalid token"; otherwise the verified payload is attached. -/
def authenticate (secret : String) (now : Nat) (header : Option Token) :
    Except ApiResponse JwtPayload :=
  match header with
  | none => .error (.msg 401 "Access denied")
  | some tok =>
      match jwtVerify secret now tok with
      | .ok payload => .ok payload
      | .error _ => .error (.msg 400 "Invalid token")

/-- Route composition `app.post(path, authenticate, handler)`: the handler
runs only when the middleware attached an identity; on a middleware failure
the response is the middleware response and the store is untouched. -/
def withAuth (secret : String) (now : Nat) (header : Option Token)
    (handler : JwtPayload → DB → ApiResponse × DB) (db : DB) :
    ApiResponse × DB :=
  match authenticate secret now header with
  | .error r => (r, db)
  | .ok u => handler u db

/-- Modelled from the spec (sections 5 and 7): saving a new user under the
unique indexes UserSchema declares on username and email; the MongoDB index
enforcement is external to src/.  A duplicate insert is reported as an error
and leaves the collection unchanged. -/
def userSave (db : DB) (u : UserDoc) : Except String DB :=
  if db.users.any (fun w => w.username == u.username) then
    .error "duplicate key error: username"
  else if db.users.any (fun w => w.email == u.email) then
    .error "duplicate key error: email"
  else
    .ok { db with users := db.users ++ [u], nextId := db.nextId + 1 }

/-- POST /users/register (server.js lines 77-88). -/
def usersRegister (salt : Nat) (body : RegisterBody) (db : DB) :
    ApiResponse × DB :=
  let hashedPassword := argon2hash salt body.password
  let newUser : UserDoc :=
    { uid := db.nextId, username := body.username, email := body.email,
      password := hashedPassword, profilePic := "" }
  match userSave db newUser with
  | .ok db2 => (.msg 201 "User registered successfully", db2)
  | .error e => (.msg 400 e, db)

/-- POST /users/login (server.js lines 91-105). -/
def usersLogin (secret : String) (now : Nat) (body : LoginBody) (db : DB) :
    ApiResponse × DB :=
  match db.users.find? (fun u => u.email == body.email) with
  | none => (.msg 404 "User not found", db)
  | some user =>
      if argon2verify user.password body.password then
        (.tokenRes 200 (jwtSign secret user.uid now), db)
      else
        (.msg 400 "Invalid password", db)

/-- Handler of POST /posts (server.js lines 108-121): the author is
req.user.id and the group field keeps its schema default null. -/
def postsCreateHandler (now : Nat) (body : PostBody) (u : JwtPayload)
    (db : DB) : ApiResponse × DB :=
  let newPost : PostDoc :=
    { pid := db.nextId, author := u.id, content := body.content,
      images := body.images, group := none, createdAt := now }
  (.postRes 201 newPost,
   { db with posts := db.posts ++ [newPost], nextId := db.nextId + 1 })

/-- POST /posts with the middleware in front. -/
def postsCreate (secret : String) (now : Nat) (header : Option Token)
    (body : PostBody) (db : DB) : ApiResponse × DB :=
  withAuth secret now header (postsCreateHandler now body) db

/-- Handler of POST /groups (server.js lines 134-147): members is the
singleton of req.user.id. -/
def groupsCreateHandler (now : Nat) (body : GroupBody) (u : JwtPayload)
    (db : DB) : ApiResponse × DB :=
  let newGroup : GroupDoc :=
    { gid := db.nextId, name := body.name, description := body.description,
      members := [u.id], createdAt := now }
  (.groupRes 201 newGroup,
   { db with groups := db.groups ++ [newGroup], nextId := db.nextId + 1 })

/-- POST /groups with the middleware in front. -/
def groupsCreate (secret : String) (now : Nat) (header : Option Token)
    (body : GroupBody) (db : DB) : ApiResponse × DB :=
  withAuth secret now header (groupsCreateHandler now body) db

/-- Handler of POST /groups/:groupId/posts (server.js lines 161-183): fetch
the group (404 when absent), check membership (403 when the caller is not a
member), then create the post with author req.user.id and group groupId. -/
def groupPostsCreateHandler (now : Nat) (groupId : Nat) (body : PostBody)
    (u : JwtPayload) (db : DB) : ApiResponse × DB :=
  match db.groups.find? (fun g => g.gid == groupId) with
  | none => (.msg 404 "Group not found", db)
  | some group =>
      if group.members.contains u.id then
        let newGroupPost : PostDoc :=
          { pid := db.nextId, author := u.id, content := body.content,
            images := body.images, group := some groupId, createdAt := now }
        (.postRes 201 newGroupPost,
         { db with posts := db.posts ++ [newGroupPost],
                   nextId := db.nextId + 1 })
      else
        (.msg 403 "You are not a member of this group", db)

/-- POST /groups/:groupId/posts with the middleware in front. -/
def groupPostsCreate (secret : String) (now : Nat) (header : Option Token)
    (groupId : Nat) (body : PostBody) (db : DB) : ApiResponse × DB :=
  withAuth secret now header (groupPostsCreateHandler now groupId body) db

/-- Handler of POST /messages (server.js lines 186-199): the sender is
req.user.id. -/
def messagesCreateHandler (now : Nat) (body : MessageBody) (u : JwtPayload)
    (db : DB) : ApiResponse × DB :=
  let newMessage : MessageDoc :=
    { mid := db.nextId, sender := u.id, receiver := body.receiver,
      content := body.content, sentAt := now }
  (.messageRes 201 newMessage,
   { db with messages := db.messages ++ [newMessage],
             nextId := db.nextId + 1 })

/-- POST /messages with the middleware in front. -/
def messagesCreate (secret : String) (now : Nat) (header : Option Token)
    (body : MessageBody) (db : DB) : ApiResponse × DB :=
  withAuth secret now header (messagesCreateHandler now body) db

/-- C1: for every authenticated creation request (POST /posts, POST /groups,
POST /groups/:groupId/posts, POST /messages), the author (or sender, or for
groups the member set) stored in the created document comes from the identity
the Access Guard attached from the verified token, and varying a
client-supplied author/sender/members field in the request body does not
change the result. -/
theorem c1_author_from_verified_identity
    (secret : String) (now : Nat) (tok : Token) (uid : Nat)
    (pb : PostBody) (gb : GroupBody) (mb : MessageBody) (db : DB)
    (a a' : Option Nat) (m m' : Option (List Nat)) (s s' : Option Nat)
    (gid : Nat) (g : GroupDoc)
    (hauth : jwtVerify secret now tok = .ok ⟨uid⟩)
    (hg : db.groups.find? (fun g0 => g0.gid == gid) = some g)
    (hmem : g.members.contains uid = true) :
    ((postsCreate secret now (some tok) pb db).1 =
        .postRes 201 { pid := db.nextId, author := uid, content := pb.content,
                       images := pb.images, group := none, createdAt := now }
      ∧ postsCreate secret now (some tok) { pb with author := a } db =
          postsCreate secret now (some tok) { pb with author := a' } db)
    ∧ ((groupsCreate secret now (some tok) gb db).1 =
        .groupRes 201 { gid := db.nextId, name := gb.name,
                        description := gb.description, members := [uid],
                        createdAt := now }
      ∧ groupsCreate secret now (some tok) { gb with members := m } db =
          groupsCreate secret now (some tok) { gb with members := m' } db)
    ∧ ((groupPostsCreate secret now (some tok) gid pb db).1 =
        .postRes 201 { pid := db.nextId, author := uid, content := pb.content,
                       images := pb.images, group := some gid,
                       createdAt := now }
      ∧ groupPostsCreate secret now (some tok) gid { pb with author := a } db =
          groupPostsCreate secret now (some tok) gid { pb with author := a' } db)
    ∧ ((messagesCreate secret now (some tok) mb db).1 =
        .messageRes 201 { mid := db.nextId, sender := uid,
                          receiver := mb.receiver, content := mb.content,
                          sentAt := now }
      ∧ messagesCreate secret now (some tok) { mb with sender := s } db =
          messagesCreate secret now (some tok) { mb with sender := s' } db) := by
  have hA : authenticate secret now (some tok) = .ok ⟨uid⟩ := by
    simp [authenticate, hauth]
  have hmem' : uid ∈ g.members := by simpa using hmem
  refine ⟨⟨?_, ?_⟩, ⟨?_, ?_⟩, ⟨?_, ?_⟩, ⟨?_, ?_⟩⟩ <;>
    simp [postsCreate, groupsCreate, groupPostsCreate, messagesCreate,
      withAuth, hA, postsCreateHandler, groupsCreateHandler,
      groupPostsCreateHandler, messagesCreateHandler, hg, hmem']

/-- C1 witness: the theorem applied at a concrete store holding the group
with id 5 and member 7, a token for identity 7, and an adversarial author
field in the body. -/
theorem c1_author_from_verified_identity_witness :
    jwtVerify "k" 0 (jwtSign "k" 7 0) = .ok ⟨7⟩
    ∧ (DB.groups ⟨[], [], [⟨5, "g", none, [7], 0⟩], [], 9⟩).find?
        (fun g0 => g0.gid == 5) = some ⟨5, "g", none, [7], 0⟩
    ∧ ([7].contains 7 = true)
    ∧ (postsCreate "k" 0 (some (jwtSign "k" 7 0)) ⟨"hi", [], some 1, none⟩
        ⟨[], [], [⟨5, "g", none, [7], 0⟩], [], 9⟩).1 =
      .postRes 201 ⟨9, 7, "hi", [], none, 0⟩ :=
  ⟨rfl, by decide, by decide,
    (c1_author_from_verified_identity "k" 0 (jwtSign "k" 7 0) 7
      ⟨"hi", [], some 1, none⟩ ⟨"n", none, none⟩ ⟨3, "m", none⟩
      ⟨[], [], [⟨5, "g", none, [7], 0⟩], [], 9⟩
      none (some 1) none (some [1]) none (some 2) 5 ⟨5, "g", none, [7], 0⟩
      rfl (by decide) (by decide)).1.1⟩

/-- C2: group-scoped post creation by a verified identity fails 404 when the
group does not exist, fails 403 when the identity is not a member, and on
membership succeeds with 201 where the stored post carries the group id and
the caller as author. -/
theorem c2_group_post_branches
    (secret : String) (now gid : Nat) (tok : Token) (uid : Nat)
    (pb : PostBody) (db : DB)
    (hauth : jwtVerify secret now tok = .ok ⟨uid⟩) :
    (db.groups.find? (fun g0 => g0.gid == gid) = none →
      groupPostsCreate secret now (some tok) gid pb db =
        (.msg 404 "Group not found", db))
    ∧ (∀ g, db.groups.find? (fun g0 => g0.gid == gid) = some g →
        g.members.contains uid = false →
        groupPostsCreate secret now (some tok) gid pb db =
          (.msg 403 "You are not a member of this group", db))
    ∧ (∀ g, db.groups.find? (fun g0 => g0.gid == gid) = some g →
        g.members.contains uid = true →
        groupPostsCreate secret now (some tok) gid pb db =
          (.postRes 201
             { pid := db.nextId, author := uid, content := pb.content,
               images := pb.images, group := some gid, createdAt := now },
           { db with
               posts := db.posts ++
                 [{ pid := db.nextId, author := uid, content := pb.content,
                    images := pb.images, group := some gid,
                    createdAt := now }],
               nextId := db.nextId + 1 })) := by
  have hA : authenticate secret now (some tok) = .ok ⟨uid⟩ := by
    simp [authenticate, hauth]
  refine ⟨fun hnone => ?_, fun g hsome hnm => ?_, fun g hsome hm => ?_⟩
  · simp [groupPostsCreate, withAuth, hA, groupPostsCreateHandler, hnone]
  · have hnm' : uid ∉ g.members := by simpa using hnm
    simp [groupPostsCreate, withAuth, hA, groupPostsCreateHandler, hsome, hnm']
  · have hm' : uid ∈ g.members := by simpa using hm
    simp [groupPostsCreate, withAuth, hA, groupPostsCreateHandler, hsome, hm']

/-- C2 witness: with a store holding only the group 5 whose sole member is 7,
identity 7 posts into group 5 and the stored post carries group 5 and
author 7. -/
theorem c2_group_post_branches_witness :
    jwtVerify "k" 0 (jwtSign "k" 7 0) = .ok ⟨7⟩
    ∧ groupPostsCreate "k" 0 (some (jwtSign "k" 7 0)) 5
        ⟨"hi", [], none, none⟩ ⟨[], [], [⟨5, "g", none, [7], 0⟩], [], 9⟩ =
      (.postRes 201 ⟨9, 7, "hi", [], some 5, 0⟩,
       ⟨[], [⟨9, 7, "hi", [], some 5, 0⟩], [⟨5, "g", none, [7], 0⟩], [], 10⟩) :=
  ⟨rfl,
    (c2_group_post_branches "k" 0 5 (jwtSign "k" 7 0) 7
      ⟨"hi", [], none, none⟩ ⟨[], [], [⟨5, "g", none, [7], 0⟩], [], 9⟩
      rfl).2.2 ⟨5, "g", none, [7], 0⟩ (by decide) (by decide)⟩

/-- C3: the Access Guard responds 401 "Access denied" when the Authorization
header is absent and 400 "Invalid token" when the presented token fails
verification; in both cases the store is untouched and the outcome does not
depend on the downstream handler, so no handler runs and no identity is
attached. -/
theorem c3_access_guard
    (secret : String) (now : Nat) (t : Token) (db : DB)
    (h h2 : JwtPayload → DB → ApiResponse × DB)
    (hbad : jwtVerify secret now t = .error .invalid) :
    (withAuth secret now none h db = (.msg 401 "Access denied", db))
    ∧ (withAuth secret now (some t) h db = (.msg 400 "Invalid token", db))
    ∧ (withAuth secret now none h db = withAuth secret now none h2 db)
    ∧ (withAuth secret now (some t) h db =
        withAuth secret now (some t) h2 db) := by
  refine ⟨?_, ?_, ?_, ?_⟩ <;> simp [withAuth, authenticate, hbad]

/-- C3 witness: a malformed token against an arbitrary concrete handler. -/
theorem c3_access_guard_witness :
    jwtVerify "k" 0 (Token.malformed "x") = .error .invalid
    ∧ withAuth "k" 0 (some (Token.malformed "x"))
        (fun _ d => (.msg 200 "ok", d)) ⟨[], [], [], [], 0⟩ =
      (.msg 400 "Invalid token", ⟨[], [], [], [], 0⟩) :=
  ⟨rfl,
    (c3_access_guard "k" 0 (Token.malformed "x") ⟨[], [], [], [], 0⟩
      (fun _ d => (.msg 200 "ok", d)) (fun _ d => (.msg 500 "no", d))
      rfl).2.1⟩

/-- C4: a token issued for an identity carries that id and an expiry one hour
from issuance; verifying it immediately returns the same identity; a token
with an altered signature, a malformed token, and a token past its expiry all
fail with the single error kind. -/
theorem c4_token_lifecycle
    (secret : String) (uid now now2 now3 s : Nat) (raw : String)
    (hs : s ≠ sigOf secret uid (now + 3600))
    (hexp : now + 3600 ≤ now2) :
    jwtSign secret uid now =
      Token.signed uid (now + 3600) (sigOf secret uid (now + 3600))
    ∧ jwtVerify secret now (jwtSign secret uid now) = .ok ⟨uid⟩
    ∧ jwtVerify secret now3 (Token.signed uid (now + 3600) s) =
        .error .invalid
    ∧ jwtVerify secret now3 (Token.malformed raw) = .error .invalid
    ∧ jwtVerify secret now2 (jwtSign secret uid now) = .error .invalid := by
  refine ⟨rfl, ?_, ?_, rfl, ?_⟩
  · simp [jwtSign, jwtVerify]
  · simp [jwtVerify, hs]
  · simp [jwtSign, jwtVerify, Nat.not_lt.mpr hexp]

/-- C4 witness: identity 7, issuance at time 0.  The tampered token (zeroed
signature, expiry 3600 intact) is presented at time 10, well before expiry,
and is rejected on the signature alone; the genuine token verifies at time 0
and is rejected at time 5000, past the hour expiry. -/
theorem c4_token_lifecycle_witness :
    ((0 : Nat) ≠ sigOf "k" 7 (0 + 3600))
    ∧ (0 + 3600 ≤ 5000)
    ∧ jwtVerify "k" 0 (jwtSign "k" 7 0) = .ok ⟨7⟩
    ∧ jwtVerify "k" 10 (Token.signed 7 (0 + 3600) 0) = .error .invalid
    ∧ jwtVerify "k" 5000 (jwtSign "k" 7 0) = .error .invalid :=
  ⟨by decide, by decide,
    (c4_token_lifecycle "k" 7 0 5000 10 0 "x" (by decide) (by decide)).2.1,
    (c4_token_lifecycle "k" 7 0 5000 10 0 "x" (by decide) (by decide)).2.2.1,
    (c4_token_lifecycle "k" 7 0 5000 10 0 "x"
      (by decide) (by decide)).2.2.2.2⟩

/-- C5: verifying a hash against the plaintext it was produced from succeeds,
and verifying it against any other plaintext fails. -/
theorem c5_credential_roundtrip (salt : Nat) (p p2 : String) (hne : p2 ≠ p) :
    argon2verify (argon2hash salt p) p = true
    ∧ argon2verify (argon2hash salt p) p2 = false := by
  constructor
  · simp [argon2hash, argon2verify]
  · simp [argon2hash, argon2verify]
    exact fun hh => hne hh.symm

/-- C5 witness: the hash of "pw" verifies against "pw" and not against
"other". -/
theorem c5_credential_roundtrip_witness :
    ("other" ≠ "pw")
    ∧ argon2verify (argon2hash 3 "pw") "pw" = true
    ∧ argon2verify (argon2hash 3 "pw") "other" = false :=
  ⟨by decide,
    (c5_credential_roundtrip 3 "pw" "other" (by decide)).1,
    (c5_credential_roundtrip 3 "pw" "other" (by decide)).2⟩

/-- C6: login fails 404 "User not found" when no user has the given email,
fails 400 "Invalid password" when password verification fails, and on success
responds 200 with a token freshly issued for the found user's id; the store
is unchanged in every case. -/
theorem c6_login_branches
    (secret : String) (now : Nat) (body : LoginBody) (db : DB) :
    (db.users.find? (fun u => u.email == body.email) = none →
      usersLogin secret now body db = (.msg 404 "User not found", db))
    ∧ (∀ u, db.users.find? (fun u0 => u0.email == body.email) = some u →
        argon2verify u.password body.password = false →
        usersLogin secret now body db = (.msg 400 "Invalid password", db))
    ∧ (∀ u, db.users.find? (fun u0 => u0.email == body.email) = some u →
        argon2verify u.password body.password = true →
        usersLogin secret now body db =
          (.tokenRes 200 (jwtSign secret u.uid now), db)) := by
  refine ⟨fun hnone => ?_, fun u hsome hbad => ?_, fun u hsome hok => ?_⟩
  · simp [usersLogin, hnone]
  · simp [usersLogin, hsome, hbad]
  · simp [usersLogin, hsome, hok]

/-- C6 scenario at concrete values: the registered user logs in with the
right password and receives a token for their id; a wrong password is
rejected 400 and an unknown email 404. -/
theorem c6_login_branches_witness :
    usersLogin "k" 0 ⟨"a@x.com", "pw1"⟩
        ⟨[⟨0, "alice", "a@x.com", ⟨3, "pw1"⟩, ""⟩], [], [], [], 1⟩ =
      (.tokenRes 200 (jwtSign "k" 0 0),
       ⟨[⟨0, "alice", "a@x.com", ⟨3, "pw1"⟩, ""⟩], [], [], [], 1⟩)
    ∧ usersLogin "k" 0 ⟨"a@x.com", "wrong"⟩
        ⟨[⟨0, "alice", "a@x.com", ⟨3, "pw1"⟩, ""⟩], [], [], [], 1⟩ =
      (.msg 400 "Invalid password",
       ⟨[⟨0, "alice", "a@x.com", ⟨3, "pw1"⟩, ""⟩], [], [], [], 1⟩)
    ∧ usersLogin "k" 0 ⟨"b@y.com", "pw1"⟩
        ⟨[⟨0, "alice", "a@x.com", ⟨3, "pw1"⟩, ""⟩], [], [], [], 1⟩ =
      (.msg 404 "User not found",
       ⟨[⟨0, "alice", "a@x.com", ⟨3, "pw1"⟩, ""⟩], [], [], [], 1⟩) :=
  ⟨(c6_login_branches "k" 0 ⟨"a@x.com", "pw1"⟩
      ⟨[⟨0, "alice", "a@x.com", ⟨3, "pw1"⟩, ""⟩], [], [], [], 1⟩).2.2
      ⟨0, "alice", "a@x.com", ⟨3, "pw1"⟩, ""⟩ (by decide) (by decide),
   (c6_login_branches "k" 0 ⟨"a@x.com", "wrong"⟩
      ⟨[⟨0, "alice", "a@x.com", ⟨3, "pw1"⟩, ""⟩], [], [], [], 1⟩).2.1
      ⟨0, "alice", "a@x.com", ⟨3, "pw1"⟩, ""⟩ (by decide) (by decide),
   (c6_login_branches "k" 0 ⟨"b@y.com", "pw1"⟩
      ⟨[⟨0, "alice", "a@x.com", ⟨3, "pw1"⟩, ""⟩], [], [], [], 1⟩).1
      (by decide)⟩

/-- C7: a registration that repeats an already-registered username or email
fails with the store's duplicate-key validation error, surfaced as 400, and
the store — in particular the user collection — is exactly as before. -/
theorem c7_duplicate_registration (salt : Nat) (body : RegisterBody) (db : DB)
    (hdup : db.users.any
      (fun u => u.username == body.username || u.email == body.email) =
        true) :
    (usersRegister salt body db).1.statusOf = 400
    ∧ (usersRegister salt body db).2 = db := by
  have hcases : (db.users.any (fun w => w.username == body.username) = true) ∨
      (db.users.any (fun w => w.email == body.email) = true) := by
    rcases List.any_eq_true.mp hdup with ⟨u, hu, hor⟩
    rcases Bool.or_eq_true_iff.mp hor with huser | hemail
    · exact Or.inl (List.any_eq_true.mpr ⟨u, hu, huser⟩)
    · exact Or.inr (List.any_eq_true.mpr ⟨u, hu, hemail⟩)

  by_cases huser : db.users.any (fun w => w.username == body.username) = true
  · simp [usersRegister, userSave, huser, ApiResponse.statusOf]
  · have hemail : db.users.any (fun w => w.email == body.email) = true :=
      hcases.resolve_left huser
    simp [usersRegister, userSave, huser, hemail, ApiResponse.statusOf]

/-- C7 witness: re-registering the username "alice" under a fresh email is
rejected 400 and leaves the store unchanged. -/
theorem c7_duplicate_registration_witness :
    (DB.users ⟨[⟨0, "alice", "a@x.com", ⟨3, "pw1"⟩, ""⟩], [], [], [], 1⟩).any
      (fun u => u.username == "alice" || u.email == "b@y.com") = true
    ∧ (usersRegister 4 ⟨"alice", "b@y.com", "pw2"⟩
        ⟨[⟨0, "alice", "a@x.com", ⟨3, "pw1"⟩, ""⟩], [], [], [], 1⟩).2 =
      ⟨[⟨0, "alice", "a@x.com", ⟨3, "pw1"⟩, ""⟩], [], [], [], 1⟩ :=
  ⟨by decide,
    (c7_duplicate_registration 4 ⟨"alice", "b@y.com", "pw2"⟩
      ⟨[⟨0, "alice", "a@x.com", ⟨3, "pw1"⟩, ""⟩], [], [], [], 1⟩
      (by decide)).2⟩

/-- C8: the membership/ownership check before a group-scoped post creation is
a pure precondition gate: on both failure paths (group missing, caller not a
member) the store is exactly as before, and even on success the check writes
nothing — only the post insertion touches the store, leaving users, groups
and messages unchanged on every path. -/
theorem c8_membership_check_pure
    (secret : String) (now gid : Nat) (tok : Token) (uid : Nat)
    (pb : PostBody) (db : DB)
    (hauth : jwtVerify secret now tok = .ok ⟨uid⟩) :
    ((groupPostsCreate secret now (some tok) gid pb db).2.users = db.users
      ∧ (groupPostsCreate secret now (some tok) gid pb db).2.groups =
          db.groups
      ∧ (groupPostsCreate secret now (some tok) gid pb db).2.messages =
          db.messages)
    ∧ (db.groups.find? (fun g0 => g0.gid == gid) = none →
        (groupPostsCreate secret now (some tok) gid pb db).2 = db)
    ∧ (∀ g, db.groups.find? (fun g0 => g0.gid == gid) = some g →
        g.members.contains uid = false →
        (groupPostsCreate secret now (some tok) gid pb db).2 = db) := by
  have hA : authenticate secret now (some tok) = .ok ⟨uid⟩ := by
    simp [authenticate, hauth]
  refine ⟨?_, fun hnone => ?_, fun g hsome hnm => ?_⟩
  · unfold groupPostsCreate withAuth groupPostsCreateHandler
    rw [hA]
    rcases hfind : db.groups.find? (fun g0 => g0.gid == gid) with _ | g
    · simp [hfind]
    · by_cases hm : uid ∈ g.members <;> simp [hfind, hm]
  · simp [groupPostsCreate, withAuth, hA, groupPostsCreateHandler, hnone]
  · have hnm' : uid ∉ g.members := by simpa using hnm
    simp [groupPostsCreate, withAuth, hA, groupPostsCreateHandler, hsome,
      hnm']

/-- C8 witness: a non-member (identity 8) posting into group 5 leaves the
store exactly as it was. -/
theorem c8_membership_check_pure_witness :
    jwtVerify "k" 0 (jwtSign "k" 8 0) = .ok ⟨8⟩
    ∧ (groupPostsCreate "k" 0 (some (jwtSign "k" 8 0)) 5
        ⟨"hi", [], none, none⟩ ⟨[], [], [⟨5, "g", none, [7], 0⟩], [], 9⟩).2 =
      ⟨[], [], [⟨5, "g", none, [7], 0⟩], [], 9⟩ :=
  ⟨rfl,
    (c8_membership_check_pure "k" 0 5 (jwtSign "k" 8 0) 8
      ⟨"hi", [], none, none⟩ ⟨[], [], [⟨5, "g", none, [7], 0⟩], [], 9⟩
      rfl).2.2 ⟨5, "g", none, [7], 0⟩ (by decide) (by decide)⟩

/-- C9: an authenticated group creation stores a group whose member list is
exactly the singleton of the verified caller, so the creator is a member of
the created group. -/
theorem c9_group_creator_member
    (secret : String) (now : Nat) (tok : Token) (uid : Nat) (gb : GroupBody)
    (db : DB)
    (hauth : jwtVerify secret now tok = .ok ⟨uid⟩) :
    ∃ g, groupsCreate secret now (some tok) gb db =
        (.groupRes 201 g,
         { db with groups := db.groups ++ [g], nextId := db.nextId + 1 })
      ∧ g.members = [uid] ∧ uid ∈ g.members := by
  have hA : authenticate secret now (some tok) = .ok ⟨uid⟩ := by
    simp [authenticate, hauth]
  refine ⟨{ gid := db.nextId, name := gb.name, description := gb.description,
            members := [uid], createdAt := now }, ?_, rfl, by simp⟩
  simp [groupsCreate, withAuth, hA, groupsCreateHandler]

/-- C9 witness: identity 7 creates a group on an empty store and is its sole
member. -/
theorem c9_group_creator_member_witness :
    jwtVerify "k" 0 (jwtSign "k" 7 0) = .ok ⟨7⟩
    ∧ ∃ g, groupsCreate "k" 0 (some (jwtSign "k" 7 0)) ⟨"n", none, none⟩
          ⟨[], [], [], [], 0⟩ =
        (.groupRes 201 g, ⟨[], [], [g], [], 1⟩)
      ∧ g.members = [7] ∧ 7 ∈ g.members :=
  ⟨rfl,
    c9_group_creator_member "k" 0 (jwtSign "k" 7 0) 7 ⟨"n", none, none⟩
      ⟨[], [], [], [], 0⟩ rfl⟩

/-- C10: every post created through POST /posts has a null group reference —
the handler ignores any group field in the request body, so the stored post
lands in the public feed with the caller as author, and the response and new
store do not depend on the client-supplied group field. -/
theorem c10_public_post_null_group
    (secret : String) (now : Nat) (tok : Token) (uid : Nat) (pb : PostBody)
    (g g2 : Option Nat) (db : DB)
    (hauth : jwtVerify secret now tok = .ok ⟨uid⟩) :
    (∃ p, postsCreate secret now (some tok) pb db =
        (.postRes 201 p,
         { db with posts := db.posts ++ [p], nextId := db.nextId + 1 })
      ∧ p.group = none ∧ p.author = uid)
    ∧ postsCreate secret now (some tok) { pb with group := g } db =
        postsCreate secret now (some tok) { pb with group := g2 } db := by
  have hA : authenticate secret now (some tok) = .ok ⟨uid⟩ := by
    simp [authenticate, hauth]
  constructor
  · refine ⟨{ pid := db.nextId, author := uid, content := pb.content,
              images := pb.images, group := none, createdAt := now },
      ?_, rfl, rfl⟩
    simp [postsCreate, withAuth, hA, postsCreateHandler]
  · simp [postsCreate, withAuth, hA, postsCreateHandler]

/-- C10 witness: a body that asks for group 5 still produces a post with a
null group reference. -/
theorem c10_public_post_null_group_witness :
    jwtVerify "k" 0 (jwtSign "k" 7 0) = .ok ⟨7⟩
    ∧ ∃ p, postsCreate "k" 0 (some (jwtSign "k" 7 0)) ⟨"hi", [], none, some 5⟩
          ⟨[], [], [], [], 0⟩ =
        (.postRes 201 p, ⟨[], [p], [], [], 1⟩)
      ∧ p.group = none ∧ p.author = 7 :=
  ⟨rfl,
    (c10_public_post_null_group "k" 0 (jwtSign "k" 7 0) 7
      ⟨"hi", [], none, some 5⟩ none (some 5) ⟨[], [], [], [], 0⟩ rfl).1⟩

end Budx
